import Mathlib

/-!
Verification of `deepchem/molnet/load_function/lipo_datasets.py` (`load_lipo`).

The loader is embedded shallowly: external effects (data directory, presence
of the local CSV file, the on-disk cache, the featurizers and splitters) are
supplied through an `Env` record, and `load_lipo` returns both its result and
an `Effects` record describing which external actions the run performed.
-/

/-- A featurized dataset: feature rows `X` and labels `y` (one label per row,
task list is the single task `exp`). -/
structure Dataset where
  X : List Int
  y : List Int
deriving Repr, DecidableEq

/-- Modelled from the spec: the state of a fitted
`NormalizationTransformer(transform_y=True, dataset=d, move_mean=mm)`.
The normalization statistics are computed from the labels of the dataset the
transformer is constructed with. -/
structure TransformerState where
  moveMean : Bool
  ySum : Int
  yCount : Nat
deriving Repr, DecidableEq

/-- Modelled from the spec: fitting the normalization transform computes label
statistics from the given dataset only. -/
def fitNormalization (d : Dataset) (mm : Bool) : TransformerState :=
  { moveMean := mm, ySum := d.y.sum, yCount := d.y.length }

/-- Modelled from the spec: applying a fitted transform rewrites the labels
using the stored statistics (mean subtraction is scaled by the count to stay
in integers; the exact arithmetic is irrelevant to the claims). -/
def transformApply (t : TransformerState) (d : Dataset) : Dataset :=
  { d with y := d.y.map (fun v => if t.moveMean then v * (t.yCount : Int) - t.ySum else v) }

/-- The value of the `featurizer` variable after the `if/elif` chain in
`load_lipo`: one of the four known featurizer objects, or — when the name
matches no branch — the original string unchanged (the chain has no `else`). -/
inductive Featurizer
  | circularFingerprint (size : Nat)
  | convMol
  | weave
  | raw
  | passthrough (name : String)
deriving Repr, DecidableEq

/-- The `if/elif` chain of `load_lipo` selecting the featurizer object. -/
def selectFeaturizer (name : String) : Featurizer :=
  if name = "ECFP" then .circularFingerprint 1024
  else if name = "GraphConv" then .convMol
  else if name = "Weave" then .weave
  else if name = "Raw" then .raw
  else .passthrough name

/-- The three splitter objects in the `splitters` dict of `load_lipo`. -/
inductive Splitter
  | index
  | random
  | scaffold
deriving Repr, DecidableEq

/-- The `splitters` dict of `load_lipo`; `splitters[split]` raises a `KeyError`
exactly when this lookup returns `none`. -/
def splitters (s : String) : Option Splitter :=
  if s = "index" then some .index
  else if s = "random" then some .random
  else if s = "scaffold" then some .scaffold
  else none

/-- The error raised by `load_lipo` itself: the unguarded `splitters[split]`
dict lookup (a `KeyError`, the "ConfigurationError" of the spec). -/
inductive LoadError
  | keyError (key : String)
deriving Repr, DecidableEq

/-- A cache entry as deserialized by `load_dataset_from_disk`: the dataset
triple and the transformer list, returned as-is on a hit. -/
structure CacheEntry where
  train : Dataset
  valid : Option Dataset
  test : Option Dataset
  transformers : List TransformerState
deriving Repr, DecidableEq

/-- The tuple `(Lipo_tasks, (train, valid, test), transformers)` returned by
`load_lipo`; `valid`/`test` are `None` on the no-split path. -/
structure LoadResult where
  tasks : List String
  train : Dataset
  valid : Option Dataset
  test : Option Dataset
  transformers : List TransformerState
deriving Repr, DecidableEq

/-- The external actions a run of `load_lipo` performed. -/
structure Effects where
  downloaded : Bool
  cacheProbed : List String
  cacheWritten : List String
  featurized : Bool
  splitterUsed : Bool
  transformerUsed : Bool
deriving Repr, DecidableEq

/-- The environment a run of `load_lipo` executes in: the data directory,
whether `Lipophilicity.csv` already exists there, the on-disk cache contents,
and the behaviour of the featurizers and splitters. -/
structure Env where
  dataDir : String
  fileExists : Bool
  cacheLookup : String → Option CacheEntry
  featurize : Featurizer → Dataset
  splitTVT : Splitter → Dataset → Dataset × Dataset × Dataset

/-- Python's `str(split)`: `str(None)` is the literal string `"None"`. -/
def strOfSplit : Option String → String
  | none => "None"
  | some s => s

/-- The `dir_name` computed in `load_lipo` when `reload` is true. -/
def dirName (featurizer : String) (split : Option String) (move_mean : Bool) : String :=
  if move_mean then "lipo/" ++ featurizer ++ "/" ++ strOfSplit split
  else "lipo/" ++ featurizer ++ "_mean_unmoved/" ++ strOfSplit split

/-- `os.path.join` for the relative paths used here. -/
def pathJoin (a b : String) : String := a ++ "/" ++ b

/-- Shallow embedding of `load_lipo(featurizer, split, reload, move_mean)`.

Mirrors the Python control flow:
1. compute `save_dir` (used only under `reload`);
2. download `Lipophilicity.csv` if absent — this happens before the cache
   probe, unconditionally on `reload`;
3. if `reload`, probe the cache at `save_dir`; on a hit return
   `(Lipo_tasks, all_dataset, transformers)` at once;
4. select the featurizer by the `if/elif` chain and featurize;
5. if `split is None`: fit one normalization transform on the whole dataset,
   apply it, return `(tasks, (dataset, None, None), transformers)`, no write;
6. otherwise look up `splitters[split]` (KeyError if absent), split, fit one
   transform on train, apply it to train/valid/test, write the cache iff
   `reload`, and return. -/
def load_lipo (featurizer : String) (split : Option String) (reload : Bool)
    (move_mean : Bool) (env : Env) : Except LoadError LoadResult × Effects :=
  let save_dir := pathJoin env.dataDir (dirName featurizer split move_mean)
  let downloaded := !env.fileExists
  let lipo_tasks : List String := ["exp"]
  match (if reload then env.cacheLookup save_dir else none) with
  | some entry =>
      (.ok { tasks := lipo_tasks, train := entry.train, valid := entry.valid,
             test := entry.test, transformers := entry.transformers },
       { downloaded := downloaded, cacheProbed := [save_dir], cacheWritten := [],
         featurized := false, splitterUsed := false, transformerUsed := false })
  | none =>
      let probed := if reload then [save_dir] else []
      let feat := selectFeaturizer featurizer
      let dataset := env.featurize feat
      match split with
      | none =>
          let transformers := [fitNormalization dataset move_mean]
          let dataset := transformers.foldl (fun d t => transformApply t d) dataset
          (.ok { tasks := lipo_tasks, train := dataset, valid := none, test := none,
                 transformers := transformers },
           { downloaded := downloaded, cacheProbed := probed, cacheWritten := [],
             featurized := true, splitterUsed := false, transformerUsed := true })
      | some s =>
          match splitters s with
          | none =>
              (.error (.keyError s),
               { downloaded := downloaded, cacheProbed := probed, cacheWritten := [],
                 featurized := true, splitterUsed := false, transformerUsed := false })
          | some splitter =>
              let tvt := env.splitTVT splitter dataset
              let transformers := [fitNormalization tvt.1 move_mean]
              let train := transformers.foldl (fun d t => transformApply t d) tvt.1
              let valid := transformers.foldl (fun d t => transformApply t d) tvt.2.1
              let test := transformers.foldl (fun d t => transformApply t d) tvt.2.2
              let written := if reload then [save_dir] else []
              (.ok { tasks := lipo_tasks, train := train, valid := some valid,
                     test := some test, transformers := transformers },
               { downloaded := downloaded, cacheProbed := probed, cacheWritten := written,
                 featurized := true, splitterUsed := true, transformerUsed := true })

/-- A sample dataset for concrete runs. -/
def sampleDataset : Dataset := { X := [1, 2, 3], y := [10, 20, 30] }

/-- A sample environment: the CSV file exists, the cache is empty, featurizing
yields `sampleDataset`, splitting returns the dataset for all three subsets. -/
def sampleEnv : Env :=
  { dataDir := "/data", fileExists := true,
    cacheLookup := fun _ => none,
    featurize := fun _ => sampleDataset,
    splitTVT := fun _ d => (d, d, d) }

/-- A sample cache entry for cache-hit runs. -/
def sampleEntry : CacheEntry :=
  { train := sampleDataset, valid := some sampleDataset, test := some sampleDataset,
    transformers := [{ moveMean := true, ySum := 60, yCount := 3 }] }

/-- An environment whose cache always hits and whose CSV file is absent. -/
def hitEnvNoFile : Env :=
  { dataDir := "/data", fileExists := false,
    cacheLookup := fun _ => some sampleEntry,
    featurize := fun _ => sampleDataset,
    splitTVT := fun _ d => (d, d, d) }

/-- Claim C6: for every featurizer name, split name and data directory, the
cache storage locations computed for `move_mean = true` and `move_mean = false`
are distinct, so a load with one value never returns a result cached under the
other. -/
theorem save_dir_move_mean_distinct (f : String) (sp : Option String) (d : String) :
    pathJoin d (dirName f sp true) ≠ pathJoin d (dirName f sp false) := by
  intro h
  have hl := congrArg String.length h
  simp [pathJoin, dirName, String.length_append] at hl
  exact absurd hl (by decide)

/-- Claim C7: whenever `load_lipo` succeeds — on the cache-hit path and on
every recompute path alike — the returned task list is the fixed single-task
list `["exp"]`. -/
theorem load_lipo_tasks (f : String) (sp : Option String) (reload mm : Bool)
    (env : Env) (res : LoadResult)
    (h : (load_lipo f sp reload mm env).1 = .ok res) : res.tasks = ["exp"] := by
  unfold load_lipo at h
  rcases hc : (if reload then env.cacheLookup (pathJoin env.dataDir (dirName f sp mm)) else none) with _ | entry
  · simp only [hc] at h
    rcases sp with _ | s
    · simp_all
      exact congrArg LoadResult.tasks h.symm
    · rcases hs : splitters s with _ | spl
      · simp_all
      · simp only [hs] at h
        simp at h
        exact congrArg LoadResult.tasks h.symm
  · simp only [hc] at h
    simp at h
    exact congrArg LoadResult.tasks h.symm

/-- The concrete result of the run `load_lipo "ECFP" (some "index") false true
sampleEnv`, written out. -/
def sampleRes : LoadResult :=
  { tasks := ["exp"],
    train := { X := [1, 2, 3], y := [-30, 0, 30] },
    valid := some { X := [1, 2, 3], y := [-30, 0, 30] },
    test := some { X := [1, 2, 3], y := [-30, 0, 30] },
    transformers := [{ moveMean := true, ySum := 60, yCount := 3 }] }

/-- Witness for C7 at a concrete run. -/
theorem load_lipo_tasks_witness : sampleRes.tasks = ["exp"] :=
  load_lipo_tasks "ECFP" (some "index") false true sampleEnv sampleRes (by rfl)

/-- Claim C9: with `reload = false`, `load_lipo` never probes the cache and
never writes to it, and the pipeline is recomputed (the featurizer runs), for
every configuration. -/
theorem load_lipo_no_reload_no_cache (f : String) (sp : Option String) (mm : Bool)
    (env : Env) :
    (load_lipo f sp false mm env).2.cacheProbed = [] ∧
    (load_lipo f sp false mm env).2.cacheWritten = [] ∧
    (load_lipo f sp false mm env).2.featurized = true := by
  unfold load_lipo
  rcases sp with _ | s
  · simp
  · rcases hs : splitters s with _ | spl <;> simp [hs]

/-- Claim C8: on every successful recompute path (the featurizer ran, so the
cache was not hit), the returned transformer list has exactly one entry. -/
theorem load_lipo_recompute_singleton_transformers (f : String) (sp : Option String)
    (reload mm : Bool) (env : Env) (res : LoadResult)
    (hfe : (load_lipo f sp reload mm env).2.featurized = true)
    (h : (load_lipo f sp reload mm env).1 = .ok res) : res.transformers.length = 1 := by
  unfold load_lipo at hfe h
  rcases hc : (if reload then env.cacheLookup (pathJoin env.dataDir (dirName f sp mm)) else none) with _ | entry
  · simp only [hc] at h
    rcases sp with _ | s
    · simp at h
      subst h
      rfl
    · rcases hs : splitters s with _ | spl
      · simp_all
      · simp only [hs] at h
        simp at h
        subst h
        rfl
  · simp only [hc] at hfe
    simp at hfe

/-- Witness for C8 at a concrete recompute run. -/
theorem load_lipo_recompute_singleton_transformers_witness :
    sampleRes.transformers.length = 1 :=
  load_lipo_recompute_singleton_transformers "ECFP" (some "index") false true
    sampleEnv sampleRes (by rfl) (by rfl)

/-- Claim C3: for every non-null split name outside
`{"index", "random", "scaffold"}`, once the run reaches the splitter lookup
(reload off, or the cache probe missed), `load_lipo` fails with the `KeyError`
of the unguarded `splitters[split]` lookup — there is no fallback default. -/
theorem load_lipo_unknown_split_key_error (f s : String) (reload mm : Bool) (env : Env)
    (hs : s ∉ ["index", "random", "scaffold"])
    (hmiss : reload = false ∨
      env.cacheLookup (pathJoin env.dataDir (dirName f (some s) mm)) = none) :
    (load_lipo f (some s) reload mm env).1 = .error (.keyError s) := by
  have h1 : s ≠ "index" := fun h => hs (by simp [h])
  have h2 : s ≠ "random" := fun h => hs (by simp [h])
  have h3 : s ≠ "scaffold" := fun h => hs (by simp [h])
  have hsp : splitters s = none := by simp [splitters, h1, h2, h3]
  unfold load_lipo
  rcases hmiss with hr | hm
  · subst hr
    simp [hsp]
  · simp [hm, hsp]

/-- Witness for C3 at a concrete run with the unknown split name `"butina"`. -/
theorem load_lipo_unknown_split_key_error_witness :
    (load_lipo "ECFP" (some "butina") true true sampleEnv).1 =
      .error (.keyError "butina") :=
  load_lipo_unknown_split_key_error "ECFP" "butina" true true sampleEnv
    (by decide) (Or.inr rfl)

/-- Claim C4: with `split = None`, on the recompute path (reload off or cache
miss) `load_lipo` returns validation and test as explicitly absent (`none`,
not empty datasets) and writes nothing to the cache, even when `reload` is
true. -/
theorem load_lipo_no_split (f : String) (reload mm : Bool) (env : Env)
    (hmiss : reload = false ∨
      env.cacheLookup (pathJoin env.dataDir (dirName f none mm)) = none) :
    (load_lipo f none reload mm env).1 =
      .ok { tasks := ["exp"],
            train := transformApply
              (fitNormalization (env.featurize (selectFeaturizer f)) mm)
              (env.featurize (selectFeaturizer f)),
            valid := none, test := none,
            transformers := [fitNormalization (env.featurize (selectFeaturizer f)) mm] } ∧
    (load_lipo f none reload mm env).2.cacheWritten = [] := by
  unfold load_lipo
  rcases hmiss with hr | hm
  · subst hr
    simp
  · simp [hm]

/-- Witness for C4 at a concrete run with `reload = true` and an empty cache. -/
theorem load_lipo_no_split_witness :
    (load_lipo "GraphConv" none true false sampleEnv).1 =
      .ok { tasks := ["exp"],
            train := transformApply
              (fitNormalization (sampleEnv.featurize (selectFeaturizer "GraphConv")) false)
              (sampleEnv.featurize (selectFeaturizer "GraphConv")),
            valid := none, test := none,
            transformers := [fitNormalization
              (sampleEnv.featurize (selectFeaturizer "GraphConv")) false] } ∧
    (load_lipo "GraphConv" none true false sampleEnv).2.cacheWritten = [] :=
  load_lipo_no_split "GraphConv" true false sampleEnv (Or.inr rfl)

/-- Claim C10: with `split = None` and `reload = true`, `load_lipo` still
probes the cache, at a key whose split segment is the literal string `"None"`,
and on a hit returns the cached entry as-is. -/
theorem load_lipo_none_split_cache_probe (f : String) (mm : Bool) (env : Env)
    (entry : CacheEntry)
    (h : env.cacheLookup (pathJoin env.dataDir (dirName f none mm)) = some entry) :
    dirName f none mm =
      (if mm then "lipo/" ++ f ++ "/" ++ "None"
       else "lipo/" ++ f ++ "_mean_unmoved/" ++ "None") ∧
    (load_lipo f none true mm env).2.cacheProbed =
      [pathJoin env.dataDir (dirName f none mm)] ∧
    (load_lipo f none true mm env).1 =
      .ok { tasks := ["exp"], train := entry.train, valid := entry.valid,
            test := entry.test, transformers := entry.transformers } := by
  refine ⟨by simp [dirName, strOfSplit], ?_, ?_⟩ <;> unfold load_lipo <;> simp [h]

/-- Witness for C10 at a concrete cache-hit run with `split = None`. -/
theorem load_lipo_none_split_cache_probe_witness :
    dirName "ECFP" none true =
      (if true then "lipo/" ++ "ECFP" ++ "/" ++ "None"
       else "lipo/" ++ "ECFP" ++ "_mean_unmoved/" ++ "None") ∧
    (load_lipo "ECFP" none true true hitEnvNoFile).2.cacheProbed =
      [pathJoin hitEnvNoFile.dataDir (dirName "ECFP" none true)] ∧
    (load_lipo "ECFP" none true true hitEnvNoFile).1 =
      .ok { tasks := ["exp"], train := sampleEntry.train, valid := sampleEntry.valid,
            test := sampleEntry.test, transformers := sampleEntry.transformers } :=
  load_lipo_none_split_cache_probe "ECFP" true hitEnvNoFile sampleEntry rfl

/-- Claim C1, counterexample to the claim as stated: a cache-hit run
(`reload = true`, probe succeeds, the cached triple is returned) in an
environment where the local CSV file is absent still performs the remote
download — the download is not short-circuited by the cache hit. -/
theorem load_lipo_cache_hit_download_cex :
    (load_lipo "ECFP" (some "index") true true hitEnvNoFile).1 =
      .ok { tasks := ["exp"], train := sampleEntry.train, valid := sampleEntry.valid,
            test := sampleEntry.test, transformers := sampleEntry.transformers } ∧
    (load_lipo "ECFP" (some "index") true true hitEnvNoFile).2.downloaded = true := by
  exact ⟨rfl, rfl⟩

/-- Claim C1 as amended: on a cache hit with `reload = true`, `load_lipo`
returns the cached `(TaskList, SplitResult, TransformerStateList)` immediately
without invoking the Featurizer, Splitter, or Transformer and without writing
the cache; the dataset-file existence check runs before the probe, so the
remote download still occurs exactly when the local file is absent. -/
theorem load_lipo_cache_hit_short_circuit (f : String) (sp : Option String) (mm : Bool)
    (env : Env) (entry : CacheEntry)
    (h : env.cacheLookup (pathJoin env.dataDir (dirName f sp mm)) = some entry) :
    (load_lipo f sp true mm env).1 =
      .ok { tasks := ["exp"], train := entry.train, valid := entry.valid,
            test := entry.test, transformers := entry.transformers } ∧
    (load_lipo f sp true mm env).2 =
      { downloaded := !env.fileExists,
        cacheProbed := [pathJoin env.dataDir (dirName f sp mm)],
        cacheWritten := [], featurized := false, splitterUsed := false,
        transformerUsed := false } := by
  unfold load_lipo
  simp [h]

/-- Witness for the amended C1 at a concrete cache-hit run. -/
theorem load_lipo_cache_hit_short_circuit_witness :
    (load_lipo "Weave" (some "random") true true hitEnvNoFile).1 =
      .ok { tasks := ["exp"], train := sampleEntry.train, valid := sampleEntry.valid,
            test := sampleEntry.test, transformers := sampleEntry.transformers } ∧
    (load_lipo "Weave" (some "random") true true hitEnvNoFile).2 =
      { downloaded := !hitEnvNoFile.fileExists,
        cacheProbed := [pathJoin hitEnvNoFile.dataDir (dirName "Weave" (some "random") true)],
        cacheWritten := [], featurized := false, splitterUsed := false,
        transformerUsed := false } :=
  load_lipo_cache_hit_short_circuit "Weave" (some "random") true hitEnvNoFile
    sampleEntry rfl

/-- Claim C2, counterexample to the claim as stated: with the unrecognized
featurizer name `"Bogus"`, `load_lipo` does not fail with a configuration
error — the run featurizes (file I/O happens) and returns a normal result. -/
theorem load_lipo_unknown_featurizer_cex :
    (load_lipo "Bogus" (some "index") false true sampleEnv).1 = .ok sampleRes ∧
    (load_lipo "Bogus" (some "index") false true sampleEnv).2.featurized = true := by
  exact ⟨rfl, rfl⟩

/-- Claim C2 as amended: an unrecognized featurizer name is not rejected by
`load_lipo`: it falls through the `if/elif` chain unchanged, is handed to the
CSV loader as-is, featurization proceeds, and the run completes without a
configuration error (here on the `"index"` split recompute path). -/
theorem load_lipo_unknown_featurizer_passthrough (f : String) (mm : Bool) (env : Env)
    (hf : f ∉ ["ECFP", "GraphConv", "Weave", "Raw"]) :
    selectFeaturizer f = .passthrough f ∧
    (load_lipo f (some "index") false mm env).2.featurized = true ∧
    (load_lipo f (some "index") false mm env).1 =
      .ok { tasks := ["exp"],
            train := transformApply
              (fitNormalization
                (env.splitTVT .index (env.featurize (.passthrough f))).1 mm)
              (env.splitTVT .index (env.featurize (.passthrough f))).1,
            valid := some (transformApply
              (fitNormalization
                (env.splitTVT .index (env.featurize (.passthrough f))).1 mm)
              (env.splitTVT .index (env.featurize (.passthrough f))).2.1),
            test := some (transformApply
              (fitNormalization
                (env.splitTVT .index (env.featurize (.passthrough f))).1 mm)
              (env.splitTVT .index (env.featurize (.passthrough f))).2.2),
            transformers := [fitNormalization
              (env.splitTVT .index (env.featurize (.passthrough f))).1 mm] } := by
  have h1 : f ≠ "ECFP" := fun h => hf (by simp [h])
  have h2 : f ≠ "GraphConv" := fun h => hf (by simp [h])
  have h3 : f ≠ "Weave" := fun h => hf (by simp [h])
  have h4 : f ≠ "Raw" := fun h => hf (by simp [h])
  have hsel : selectFeaturizer f = .passthrough f := by
    simp [selectFeaturizer, h1, h2, h3, h4]
  refine ⟨hsel, ?_, ?_⟩ <;> unfold load_lipo <;> simp [hsel, splitters]

/-- Witness for the amended C2 at the concrete unknown name `"Bogus"`. -/
theorem load_lipo_unknown_featurizer_passthrough_witness :
    selectFeaturizer "Bogus" = .passthrough "Bogus" ∧
    (load_lipo "Bogus" (some "index") false true sampleEnv).2.featurized = true ∧
    (load_lipo "Bogus" (some "index") false true sampleEnv).1 =
      .ok { tasks := ["exp"],
            train := transformApply
              (fitNormalization
                (sampleEnv.splitTVT .index (sampleEnv.featurize (.passthrough "Bogus"))).1 true)
              (sampleEnv.splitTVT .index (sampleEnv.featurize (.passthrough "Bogus"))).1,
            valid := some (transformApply
              (fitNormalization
                (sampleEnv.splitTVT .index (sampleEnv.featurize (.passthrough "Bogus"))).1 true)
              (sampleEnv.splitTVT .index (sampleEnv.featurize (.passthrough "Bogus"))).2.1),
            test := some (transformApply
              (fitNormalization
                (sampleEnv.splitTVT .index (sampleEnv.featurize (.passthrough "Bogus"))).1 true)
              (sampleEnv.splitTVT .index (sampleEnv.featurize (.passthrough "Bogus"))).2.2),
            transformers := [fitNormalization
              (sampleEnv.splitTVT .index (sampleEnv.featurize (.passthrough "Bogus"))).1 true] } :=
  load_lipo_unknown_featurizer_passthrough "Bogus" true sampleEnv (by decide)

/-- Perturb every label of a dataset, leaving the features alone. -/
def perturbLabels (d : Dataset) : Dataset := { d with y := d.y.map (fun v => v + 1) }

/-- A second sample environment: identical to `sampleEnv` except that the
splitter returns validation and test subsets with perturbed labels; the train
subset is the same as in `sampleEnv`. -/
def sampleEnv2 : Env :=
  { sampleEnv with splitTVT := fun _ d => (d, perturbLabels d, perturbLabels d) }

/-- Claim C5: on the split recompute path, the normalization transform is fit
exactly once, from the train subset only, and the returned transformer list is
exactly that singleton; consequently two runs that agree on everything except
the validation and test subsets produced by the splitter (train held fixed)
return identical transformer statistics. -/
theorem load_lipo_fit_train_only (f s : String) (reload mm : Bool)
    (env1 env2 : Env) (sp : Splitter) (hs : splitters s = some sp)
    (hmiss1 : reload = false ∨
      env1.cacheLookup (pathJoin env1.dataDir (dirName f (some s) mm)) = none)
    (hmiss2 : reload = false ∨
      env2.cacheLookup (pathJoin env2.dataDir (dirName f (some s) mm)) = none)
    (hfeat : env1.featurize = env2.featurize)
    (htrain : ∀ d, (env1.splitTVT sp d).1 = (env2.splitTVT sp d).1) :
    ∃ res1 res2,
      (load_lipo f (some s) reload mm env1).1 = .ok res1 ∧
      (load_lipo f (some s) reload mm env2).1 = .ok res2 ∧
      res1.transformers =
        [fitNormalization (env1.splitTVT sp (env1.featurize (selectFeaturizer f))).1 mm] ∧
      res2.transformers = res1.transformers := by
  have key : ∀ env : Env, (reload = false ∨
      env.cacheLookup (pathJoin env.dataDir (dirName f (some s) mm)) = none) →
      ∃ res, (load_lipo f (some s) reload mm env).1 = .ok res ∧
        res.transformers =
          [fitNormalization (env.splitTVT sp (env.featurize (selectFeaturizer f))).1 mm] := by
    intro env hmiss
    unfold load_lipo
    rcases hmiss with hr | hm
    · subst hr
      simp [hs]
    · simp [hm, hs]
  obtain ⟨res1, h1ok, h1t⟩ := key env1 hmiss1
  obtain ⟨res2, h2ok, h2t⟩ := key env2 hmiss2
  refine ⟨res1, res2, h1ok, h2ok, h1t, ?_⟩
  rw [h1t, h2t, ← hfeat, ← htrain]

/-- Witness for C5: two concrete runs whose splitters agree on the train
subset but return perturbed labels for validation and test. -/
theorem load_lipo_fit_train_only_witness :
    ∃ res1 res2,
      (load_lipo "ECFP" (some "index") true true sampleEnv).1 = .ok res1 ∧
      (load_lipo "ECFP" (some "index") true true sampleEnv2).1 = .ok res2 ∧
      res1.transformers =
        [fitNormalization
          (sampleEnv.splitTVT .index (sampleEnv.featurize (selectFeaturizer "ECFP"))).1 true] ∧
      res2.transformers = res1.transformers :=
  load_lipo_fit_train_only "ECFP" "index" true true sampleEnv sampleEnv2 .index rfl
    (Or.inr rfl) (Or.inr rfl) rfl (fun _ => rfl)
